import Mathlib

/-!
Shallow embedding of `src/x402_bazaar/x402_client.py` (class `X402Client`):
the payment-gated API call protocol (`call_api`), client-side search
(`search_services`) and name lookup (`get_service_details`).

Modelling choices:
* JSON values are the inductive `Json`; a parsed Python `dict` is an
  association list `Dict := List (String × Json)` (insertion order matters
  for Python dicts, so we keep lists, with lookups returning the first hit).
* `response.json()` is an oracle carried in the `NetResult` input:
  `none` models a `json.JSONDecodeError`, `some j` a successful parse.
* Python exceptions that the source does NOT catch locally
  (`AttributeError`/`TypeError` from calling `.get`/`.lower` on ill-typed
  values) are modelled with `Except PyExc`; `requests.Timeout` and other
  `requests.RequestException`s are constructors of `NetResult` because the
  source catches them and turns them into result dicts.
* Python string `.upper()`/`.lower()` are modelled by `pyUpper`/`pyLower`
  (ASCII case mapping over the character list), `a in b` on strings by
  list-infix on the character lists, and slicing `s[:n]` by `String.take`.
* JSON floats are outside the model (`Json.num` carries an `Int`); the
  payment amounts appearing in the spec's scenarios are JSON strings.
-/

namespace X402

/-- JSON values as parsed by `response.json()`. -/
inductive Json where
  | null : Json
  | bool : Bool → Json
  | num : Int → Json
  | str : String → Json
  | arr : List Json → Json
  | obj : List (String × Json) → Json

/-- A parsed Python dict: key/value pairs in insertion order. -/
abbrev Dict := List (String × Json)

mutual
/-- Python `str()` of a JSON value (`repr` for values nested in containers). -/
def pyStr : Json → String
  | .str s => s
  | j => pyRepr j

def pyRepr : Json → String
  | .null => "None"
  | .bool true => "True"
  | .bool false => "False"
  | .num n => toString n
  | .str s => "\x27" ++ s ++ "\x27"
  | .arr xs => "[" ++ pyReprItems xs ++ "]"
  | .obj fs => "\x7b" ++ pyReprFields fs ++ "\x7d"

def pyReprItems : List Json → String
  | [] => ""
  | [x] => pyRepr x
  | x :: y :: xs => pyRepr x ++ ", " ++ pyReprItems (y :: xs)

def pyReprFields : List (String × Json) → String
  | [] => ""
  | [(k, v)] => "\x27" ++ k ++ "\x27: " ++ pyRepr v
  | (k, v) :: p :: xs => "\x27" ++ k ++ "\x27: " ++ pyRepr v ++ ", " ++ pyReprFields (p :: xs)
end

/-- Python `d[k]`-style lookup returning the first binding of `k` (`d.get(k)`). -/
def dictGet (d : Dict) (k : String) : Option Json :=
  match d.find? (fun p => p.1 = k) with
  | some p => some p.2
  | none => none

/-- Python `d.get(k, v)`. -/
def dictGetD (d : Dict) (k : String) (v : Json) : Json :=
  (dictGet d k).getD v

/-- Python `k in d`. -/
def dictHas (d : Dict) (k : String) : Bool :=
  d.any (fun p => p.1 = k)

/-- Python `d[k] = v`: replace the binding in place if present, else append. -/
def dictInsert (d : Dict) (k : String) (v : Json) : Dict :=
  if dictHas d k then d.map (fun p => if p.1 = k then (k, v) else p)
  else d ++ [(k, v)]

/-- Python `\x7b**a, **b\x7d`: keys of `a` in order (values overridden by `b`
on collision), then the new keys of `b` in order. -/
def dictMerge (a b : Dict) : Dict :=
  b.foldl (fun acc p => dictInsert acc p.1 p.2) a

/-- Python `s.upper()` (ASCII case mapping, character by character). -/
def pyUpper (s : String) : String := ⟨s.data.map Char.toUpper⟩

/-- Python `s.lower()` (ASCII case mapping, character by character). -/
def pyLower (s : String) : String := ⟨s.data.map Char.toLower⟩

/-- Python `needle in hay` on strings: substring containment. -/
def pyIn (needle hay : String) : Bool :=
  decide (needle.toList <:+: hay.toList)

/-- Python truthiness of the optional string `payment_tx_hash`:
`None` and the empty string are falsy, every other string truthy
(`"completed" if payment_tx_hash else "free"`). -/
def pyTruthy : Option String → Bool
  | none => false
  | some s => s != ""

/-- Uncaught Python exceptions escaping the modelled routines. -/
inductive PyExc where
  | attributeError : PyExc
  | typeError : PyExc
  | requestException : String → PyExc
deriving Repr, DecidableEq

/-- `ClientConfig`: instance attributes and class constants read by
`call_api` (`self.timeout`, `self.PAYMENT_ADDRESS`, `self.PAYMENT_CHAIN`). -/
structure Config where
  base_url : String
  timeout : Nat
  payment_address : String
  payment_chain : String
deriving Repr, DecidableEq

def PAYMENT_ADDRESS : String := "0xfb1c478BD5567BdcD39782E0D6D23418bFda2430"

def PAYMENT_CHAIN : String := "base"

def defaultConfig : Config :=
  ⟨"https://x402-api.onrender.com", 30, PAYMENT_ADDRESS, PAYMENT_CHAIN⟩

/-- What the network did for the single request `call_api` issues:
a response (status code, parse result of the body, raw body text),
a `requests.Timeout`, or another `requests.RequestException`. -/
inductive NetResult where
  | response : Nat → Option Json → String → NetResult
  | timeout : NetResult
  | reqError : String → NetResult

/-- The result dict returned by `call_api`; absent keys are `none`. -/
structure CallOutcome where
  success : Bool
  data : Option Json
  payment_status : Option String
  payment_required : Option Bool
  payment_details : Option Dict
  cost_usdc : Option Json
  error : Option Json

/-- A `\x7b"success": False, "error": e\x7d` result dict. -/
def mkFailure (e : Json) : CallOutcome :=
  ⟨false, none, none, none, none, none, some e⟩

/-- The `except json.JSONDecodeError` fallback payload of the 402 branch. -/
def fallback402 (cfg : Config) : Dict :=
  [("amount", .str "unknown"),
   ("address", .str cfg.payment_address),
   ("chain", .str cfg.payment_chain)]

/-- The dict `call_api` works on in the 402 branch: the parsed body when it
is a JSON object, the fallback payload when parsing failed, and `none` when
the body parsed to a non-dict (Python then raises `AttributeError`). -/
def server402Dict (cfg : Config) : Option Json → Option Dict
  | none => some (fallback402 cfg)
  | some (.obj fields) => some fields
  | some _ => none

/-- `payment_details.get("amount", payment_details.get("required_payment", "unknown"))`. -/
def resolveCost (d : Dict) : Json :=
  dictGetD d "amount" (dictGetD d "required_payment" (.str "unknown"))

/-- First line of the synthesized payment instructions. -/
def instrLine1 (cfg : Config) (cost : Json) : String :=
  "1. Send " ++ pyStr cost ++ " USDC on " ++ pyUpper cfg.payment_chain
    ++ " to: " ++ cfg.payment_address

def instrLine2 : String := "2. Wait for transaction confirmation"

def instrLine3 : String := "3. Call this endpoint again with transaction hash"

/-- The client-synthesized `instructions` dict of the 402 branch. -/
def synth402 (cfg : Config) (cost : Json) : Dict :=
  [("message", .str ("Payment required: " ++ pyStr cost ++ " USDC")),
   ("instructions", .arr [.str (instrLine1 cfg cost), .str instrLine2, .str instrLine3]),
   ("payment_address", .str cfg.payment_address),
   ("payment_chain", .str cfg.payment_chain),
   ("payment_token", .str "USDC"),
   ("payment_amount", cost)]

def synthKeys : List String :=
  ["message", "instructions", "payment_address", "payment_chain",
   "payment_token", "payment_amount"]

/-- The 402 branch of `call_api`. -/
def handle402 (cfg : Config) (body : Option Json) : Except PyExc CallOutcome :=
  match server402Dict cfg body with
  | none => .error .attributeError
  | some pd =>
      let cost := resolveCost pd
      .ok ⟨false, none, none, some true,
           some (dictMerge pd (synth402 cfg cost)), some cost, none⟩

/-- The status-code dispatch of `call_api` on a received response. -/
def classify (cfg : Config) (payment_tx_hash : Option String)
    (status : Nat) (body : Option Json) (text : String) : Except PyExc CallOutcome :=
  if status = 200 then
    .ok ⟨true, some (body.getD (.obj [("text", .str text)])),
         some (if pyTruthy payment_tx_hash then "completed" else "free"),
         none, none, none, none⟩
  else if status = 402 then
    handle402 cfg body
  else if status = 400 then
    match body with
    | none => .ok (mkFailure (.str text))
    | some (.obj fields) => .ok (mkFailure (dictGetD fields "error" (.str "Bad request")))
    | some _ => .error .attributeError
  else if status = 429 then
    .ok (mkFailure (.str "Rate limit exceeded. Please try again later."))
  else if status = 500 then
    .ok (mkFailure (.str "Server error. Please try again later."))
  else
    match body with
    | none => .ok (mkFailure (.str ("HTTP " ++ toString status ++ ": " ++ text.take 200)))
    | some (.obj fields) =>
        .ok (mkFailure (dictGetD fields "error" (.str ("HTTP " ++ toString status))))
    | some _ => .error .attributeError

/-- Result of one `call_api` invocation together with the number of network
requests it issued. -/
structure CallTrace where
  outcome : Except PyExc CallOutcome
  requests : Nat

/-- `X402Client.call_api(endpoint, params, method, payment_tx_hash)`:
the method gate, then a single request whose result is `net`, then the
status-code dispatch. `endpoint` and `params` shape the outgoing request
only and do not influence the returned outcome. -/
def call_api (cfg : Config) (endpoint : String) (params : Option Dict)
    (method : String) (payment_tx_hash : Option String) (net : NetResult) : CallTrace :=
  if pyUpper method = "GET" ∨ pyUpper method = "POST" then
    ⟨match net with
     | .response status body text => classify cfg payment_tx_hash status body text
     | .timeout =>
         .ok (mkFailure (.str ("Request timeout after " ++ toString cfg.timeout ++ " seconds")))
     | .reqError msg => .ok (mkFailure (.str ("Request error: " ++ msg))),
     1⟩
  else
    ⟨.ok (mkFailure (.str ("Unsupported HTTP method: " ++ method))), 0⟩

/-- `svc.get(k, "").lower()` read off before lowering: the stored string, the
empty string when the key is missing, and `AttributeError` when the stored
value is not a string. -/
def getStrField (svc : Dict) (k : String) : Except PyExc String :=
  match dictGetD svc k (.str "") with
  | .str s => .ok s
  | _ => .error .attributeError

/-- `svc.get("tags", [])` as the sequence `for tag in ...` iterates over:
a list yields its elements, a string its one-character substrings, a dict
its keys; `None`, booleans and numbers are not iterable (`TypeError`). -/
def getTagList (svc : Dict) : Except PyExc (List Json) :=
  match dictGetD svc "tags" (.arr []) with
  | .arr l => .ok l
  | .str s => .ok (s.data.map (fun c => .str (String.mk [c])))
  | .obj fs => .ok (fs.map (fun p => .str p.1))
  | _ => .error .typeError

/-- `any(q in tag.lower() for tag in tags)`: lazy, stops at the first match
or at the first non-string tag (whose `.lower()` raises). -/
def tagsAny (q : String) : List Json → Except PyExc Bool
  | [] => .ok false
  | .str t :: rest => if pyIn q (pyLower t) then .ok true else tagsAny q rest
  | _ :: _ => .error .attributeError

/-- The filter predicate of `search_services` (with `q` already lowered):
`q in name.lower() or q in description.lower() or any(q in tag.lower() ...)`,
short-circuiting left to right as Python does. -/
def svcMatches (q : String) (svc : Dict) : Except PyExc Bool := do
  let name ← getStrField svc "name"
  if pyIn q (pyLower name) then
    return true
  else
    let descr ← getStrField svc "description"
    if pyIn q (pyLower descr) then
      return true
    else
      let tags ← getTagList svc
      tagsAny q tags

/-- The list comprehension: evaluates the predicate left to right, keeps the
hits in order, and aborts on the first exception. -/
def filterE (p : Dict → Except PyExc Bool) : List Dict → Except PyExc (List Dict)
  | [] => .ok []
  | svc :: rest => do
      let b ← p svc
      let tail ← filterE p rest
      .ok (if b then svc :: tail else tail)

/-- `X402Client.search_services(query)` applied to the list returned by
`discover_services()`: client-side filtering with `q = query.lower()`.
Exceptions propagate (the source logs and re-raises). -/
def search_services (services : List Dict) (query : String) : Except PyExc (List Dict) :=
  filterE (svcMatches (pyLower query)) services

/-- The lookup loop of `get_service_details`:
first `svc` with `svc.get("name", "").lower() == service_name.lower()`. -/
def findByName (name_l : String) : List Dict → Except PyExc (Option Dict)
  | [] => .ok none
  | svc :: rest => do
      let n ← getStrField svc "name"
      if pyLower n = name_l then .ok (some svc) else findByName name_l rest

/-- `X402Client.get_service_details(service_name)`: `disc` is the result of
`discover_services()` (which may raise); the `except Exception` handler
turns every exception — from discovery or from the loop — into `None`. -/
def get_service_details (disc : Except PyExc (List Dict)) (service_name : String) :
    Option Dict :=
  match disc >>= findByName (pyLower service_name) with
  | .ok r => r
  | .error _ => none

/-- Total effective name of a service record: the stored string, or the
empty string when the key is missing or the value is not a string. -/
def effName (svc : Dict) : String :=
  match dictGetD svc "name" (.str "") with
  | .str s => s
  | _ => ""

/-! ### Dictionary lemmas -/

theorem find?_eq_none_of_not_has (d : Dict) (k : String) (h : dictHas d k = false) :
    d.find? (fun p => p.1 = k) = none := by
  induction d with
  | nil => rfl
  | cons hd tl ih =>
    simp only [dictHas, List.any_cons, Bool.or_eq_false_iff] at h
    simp only [List.find?_cons, h.1]
    exact ih h.2

theorem dictGet_map_replace_self (d : Dict) (k : String) (v : Json)
    (h : dictHas d k = true) :
    dictGet (d.map fun p => if p.1 = k then (k, v) else p) k = some v := by
  induction d with
  | nil => simp [dictHas] at h
  | cons hd tl ih =>
    by_cases hk : hd.1 = k
    · simp [dictGet, List.find?_cons, hk]
    · simp only [dictHas, List.any_cons, hk, decide_eq_true_eq, Bool.false_or,
        decide_eq_false_iff_not, not_false_iff] at h
      simp only [List.map_cons, if_neg hk]
      simpa [dictGet, List.find?_cons, hk] using ih (by simpa [dictHas] using h)

theorem dictGet_map_replace_ne (d : Dict) (k k' : String) (v : Json) (h : k' ≠ k) :
    dictGet (d.map fun p => if p.1 = k then (k, v) else p) k' = dictGet d k' := by
  induction d with
  | nil => rfl
  | cons hd tl ih =>
    by_cases hk : hd.1 = k
    · have hkk : ¬ ((k : String) = k') := fun hc => h hc.symm
      have hhd : ¬ (hd.1 = k') := by rw [hk]; exact hkk
      simp only [List.map_cons, if_pos hk]
      simpa [dictGet, List.find?_cons, hkk, hhd] using ih
    · simp only [List.map_cons, if_neg hk]
      by_cases hk' : hd.1 = k'
      · simp [dictGet, List.find?_cons, hk']
      · simpa [dictGet, List.find?_cons, hk'] using ih

theorem dictGet_insert_self (d : Dict) (k : String) (v : Json) :
    dictGet (dictInsert d k v) k = some v := by
  unfold dictInsert
  split
  · rename_i h
    exact dictGet_map_replace_self d k v h
  · rename_i h
    simp only [Bool.not_eq_true] at h
    simp [dictGet, List.find?_append, find?_eq_none_of_not_has d k h]

theorem dictGet_insert_ne (d : Dict) (k k' : String) (v : Json) (h : k' ≠ k) :
    dictGet (dictInsert d k v) k' = dictGet d k' := by
  unfold dictInsert
  split
  · exact dictGet_map_replace_ne d k k' v h
  · have hkk : ¬ ((k : String) = k') := fun hc => h hc.symm
    have hsingle : ((k, v) :: ([] : Dict)).find? (fun p => p.1 = k') = none := by
      simp [List.find?_cons, hkk]
    simp [dictGet, List.find?_append, hsingle]

/-- `dictMerge pd (synth402 cfg c)` unfolded to six in-order insertions. -/
theorem dictMerge_synth402_unfold (pd : Dict) (cfg : Config) (c : Json) :
    dictMerge pd (synth402 cfg c) =
      dictInsert (dictInsert (dictInsert (dictInsert (dictInsert (dictInsert pd
        "message" (.str ("Payment required: " ++ pyStr c ++ " USDC")))
        "instructions" (.arr [.str (instrLine1 cfg c), .str instrLine2, .str instrLine3]))
        "payment_address" (.str cfg.payment_address))
        "payment_chain" (.str cfg.payment_chain))
        "payment_token" (.str "USDC"))
        "payment_amount" c := rfl

theorem merged402_payment_address (pd : Dict) (cfg : Config) (c : Json) :
    dictGet (dictMerge pd (synth402 cfg c)) "payment_address"
      = some (.str cfg.payment_address) := by
  rw [dictMerge_synth402_unfold,
    dictGet_insert_ne _ _ _ _ (by decide),
    dictGet_insert_ne _ _ _ _ (by decide),
    dictGet_insert_ne _ _ _ _ (by decide),
    dictGet_insert_self]

theorem merged402_payment_chain (pd : Dict) (cfg : Config) (c : Json) :
    dictGet (dictMerge pd (synth402 cfg c)) "payment_chain"
      = some (.str cfg.payment_chain) := by
  rw [dictMerge_synth402_unfold,
    dictGet_insert_ne _ _ _ _ (by decide),
    dictGet_insert_ne _ _ _ _ (by decide),
    dictGet_insert_self]

theorem merged402_payment_amount (pd : Dict) (cfg : Config) (c : Json) :
    dictGet (dictMerge pd (synth402 cfg c)) "payment_amount" = some c := by
  rw [dictMerge_synth402_unfold, dictGet_insert_self]

theorem merged402_instructions (pd : Dict) (cfg : Config) (c : Json) :
    dictGet (dictMerge pd (synth402 cfg c)) "instructions"
      = some (.arr [.str (instrLine1 cfg c), .str instrLine2, .str instrLine3]) := by
  rw [dictMerge_synth402_unfold,
    dictGet_insert_ne _ _ _ _ (by decide),
    dictGet_insert_ne _ _ _ _ (by decide),
    dictGet_insert_ne _ _ _ _ (by decide),
    dictGet_insert_ne _ _ _ _ (by decide),
    dictGet_insert_self]

theorem merged402_passthrough (pd : Dict) (cfg : Config) (c : Json)
    (k : String) (hk : k ∉ synthKeys) :
    dictGet (dictMerge pd (synth402 cfg c)) k = dictGet pd k := by
  simp only [synthKeys, List.mem_cons, List.not_mem_nil, or_false, not_or] at hk
  obtain ⟨h1, h2, h3, h4, h5, h6⟩ := hk
  rw [dictMerge_synth402_unfold,
    dictGet_insert_ne _ _ _ _ h6,
    dictGet_insert_ne _ _ _ _ h5,
    dictGet_insert_ne _ _ _ _ h4,
    dictGet_insert_ne _ _ _ _ h3,
    dictGet_insert_ne _ _ _ _ h2,
    dictGet_insert_ne _ _ _ _ h1]

/-! ### Substring lemmas -/

theorem pyIn_empty (s : String) : pyIn "" s = true := by
  unfold pyIn
  rw [decide_eq_true_iff]
  exact ⟨[], s.toList, by simp⟩

theorem pyIn_sandwich (n a b : String) : pyIn n (a ++ (n ++ b)) = true := by
  unfold pyIn
  rw [decide_eq_true_iff]
  exact ⟨a.toList, b.toList, by simp [String.toList]⟩

theorem pyIn_instrLine1_cost (cfg : Config) (c : Json) :
    pyIn (pyStr c) (instrLine1 cfg c) = true := by
  unfold pyIn instrLine1
  rw [decide_eq_true_iff]
  refine ⟨"1. Send ".toList,
    (" USDC on " ++ pyUpper cfg.payment_chain ++ " to: " ++ cfg.payment_address).toList, ?_⟩
  simp [String.toList]

theorem pyIn_instrLine1_chain (cfg : Config) (c : Json) :
    pyIn (pyUpper cfg.payment_chain) (instrLine1 cfg c) = true := by
  unfold pyIn instrLine1
  rw [decide_eq_true_iff]
  refine ⟨("1. Send " ++ pyStr c ++ " USDC on ").toList,
    (" to: " ++ cfg.payment_address).toList, ?_⟩
  simp [String.toList]

theorem pyIn_instrLine1_address (cfg : Config) (c : Json) :
    pyIn cfg.payment_address (instrLine1 cfg c) = true := by
  unfold pyIn instrLine1
  rw [decide_eq_true_iff]
  refine ⟨("1. Send " ++ pyStr c ++ " USDC on " ++ pyUpper cfg.payment_chain ++ " to: ").toList,
    [], ?_⟩
  simp [String.toList]

theorem pyIn_suffix (a n : String) : pyIn n (a ++ n) = true := by
  unfold pyIn
  rw [decide_eq_true_iff]
  exact ⟨a.toList, [], by simp [String.toList]⟩

/-! ### Generic outcome facts -/

/-- The three C3 conjunct shapes hold for any outcome with `success = false`
and no `payment_required` key. -/
theorem invariant_of_failure (o : CallOutcome) (P Q : Prop)
    (hs : o.success = false) (hp : o.payment_required = none) :
    (¬ (o.success = true ∧ o.payment_required = some true)) ∧
    (o.success = true → P) ∧
    (o.payment_required = some true → Q) := by
  refine ⟨fun hc => ?_, fun hc => ?_, fun hc => ?_⟩
  · rw [hs] at hc; exact Bool.false_ne_true hc.1
  · rw [hs] at hc; exact absurd hc Bool.false_ne_true
  · rw [hp] at hc; exact Option.noConfusion hc

/-- With a supported method, `call_api` on a 402 response is the 402 branch. -/
theorem call_api_402_eq (cfg : Config) (endpoint : String) (params : Option Dict)
    (method : String) (ptx : Option String) (body : Option Json) (text : String)
    (hm : pyUpper method = "GET" ∨ pyUpper method = "POST") :
    (call_api cfg endpoint params method ptx (.response 402 body text)).outcome
      = handle402 cfg body := by
  unfold call_api
  rw [if_pos hm]
  rfl

/-! ### Claim theorems -/

/-- Claim C4: for every method that is neither GET nor POST case-insensitively,
`call_api` returns a `Failure` whose error message is exactly
`"Unsupported HTTP method: "` followed by the method (hence contains the
method verbatim), and issues zero network requests. -/
theorem call_api_unsupported_method (cfg : Config) (endpoint : String)
    (params : Option Dict) (method : String) (ptx : Option String) (net : NetResult)
    (hm : ¬ (pyUpper method = "GET" ∨ pyUpper method = "POST")) :
    call_api cfg endpoint params method ptx net
      = ⟨.ok (mkFailure (.str ("Unsupported HTTP method: " ++ method))), 0⟩ ∧
    pyIn method ("Unsupported HTTP method: " ++ method) = true := by
  constructor
  · unfold call_api
    rw [if_neg hm]
  · exact pyIn_suffix _ _

theorem call_api_unsupported_method_witness :
    call_api defaultConfig "/api/test" none "DELETE" none .timeout
      = ⟨.ok (mkFailure (.str ("Unsupported HTTP method: " ++ "DELETE"))), 0⟩ ∧
    pyIn "DELETE" ("Unsupported HTTP method: " ++ "DELETE") = true :=
  call_api_unsupported_method defaultConfig "/api/test" none "DELETE" none .timeout
    (by decide)

/-- Claim C5: every 200 response yields a `Success` whose data is the parsed body
(or `\x7btext: raw\x7d` when parsing fails), with `payment_status`
`"completed"` exactly when the caller supplied a payment proof on this call
— the source tests Python truthiness of `payment_tx_hash`, so a proof is
supplied when the argument is a non-empty string (`None` and `""` read as
no proof and give `"free"`) — independent of the body content. -/
theorem call_api_200_success (cfg : Config) (endpoint : String) (params : Option Dict)
    (method : String) (ptx : Option String) (body : Option Json) (text : String)
    (hm : pyUpper method = "GET" ∨ pyUpper method = "POST") :
    (call_api cfg endpoint params method ptx (.response 200 body text)).outcome
      = .ok ⟨true, some (body.getD (.obj [("text", .str text)])),
             some (if pyTruthy ptx then "completed" else "free"),
             none, none, none, none⟩ ∧
    (∀ j, body = some j → body.getD (.obj [("text", .str text)]) = j) ∧
    (body = none → body.getD (.obj [("text", .str text)]) = .obj [("text", .str text)]) ∧
    (∀ s, ptx = some s → s ≠ "" →
      (if pyTruthy ptx then "completed" else "free") = "completed") ∧
    (ptx = none → (if pyTruthy ptx then "completed" else "free") = "free") ∧
    (ptx = some "" → (if pyTruthy ptx then "completed" else "free") = "free") := by
  refine ⟨?_, ?_, ?_, ?_, ?_, ?_⟩
  · unfold call_api
    rw [if_pos hm]
    rfl
  · intro j hj
    rw [hj]
    rfl
  · intro hj
    rw [hj]
    rfl
  · intro s hs hne
    rw [hs]
    simp [pyTruthy, hne]
  · intro hn
    rw [hn]
    rfl
  · intro hs
    rw [hs]
    rfl

theorem call_api_200_success_witness :
    ((call_api defaultConfig "/api/test" none "POST" (some "0xabc")
        (.response 200 none "not json")).outcome
      = .ok ⟨true, some ((none : Option Json).getD (.obj [("text", .str "not json")])),
             some (if pyTruthy (some "0xabc") then "completed" else "free"),
             none, none, none, none⟩ ∧
    (∀ j, (none : Option Json) = some j →
      (none : Option Json).getD (.obj [("text", .str "not json")]) = j) ∧
    ((none : Option Json) = none →
      (none : Option Json).getD (.obj [("text", .str "not json")])
        = .obj [("text", .str "not json")]) ∧
    (∀ s, (some "0xabc" : Option String) = some s → s ≠ "" →
      (if pyTruthy (some "0xabc") then "completed" else "free") = "completed") ∧
    ((some "0xabc" : Option String) = none →
      (if pyTruthy (some "0xabc") then "completed" else "free") = "free") ∧
    ((some "0xabc" : Option String) = some "" →
      (if pyTruthy (some "0xabc") then "completed" else "free") = "free")) ∧
    ((call_api defaultConfig "/api/test" none "GET" (some "")
        (.response 200 none "ok")).outcome
      = .ok ⟨true, some ((none : Option Json).getD (.obj [("text", .str "ok")])),
             some (if pyTruthy (some "") then "completed" else "free"),
             none, none, none, none⟩ ∧
    (∀ j, (none : Option Json) = some j →
      (none : Option Json).getD (.obj [("text", .str "ok")]) = j) ∧
    ((none : Option Json) = none →
      (none : Option Json).getD (.obj [("text", .str "ok")])
        = .obj [("text", .str "ok")]) ∧
    (∀ s, (some "" : Option String) = some s → s ≠ "" →
      (if pyTruthy (some "") then "completed" else "free") = "completed") ∧
    ((some "" : Option String) = none →
      (if pyTruthy (some "") then "completed" else "free") = "free") ∧
    ((some "" : Option String) = some "" →
      (if pyTruthy (some "") then "completed" else "free") = "free")) :=
  ⟨call_api_200_success defaultConfig "/api/test" none "POST" (some "0xabc") none "not json"
    (Or.inr rfl),
   call_api_200_success defaultConfig "/api/test" none "GET" (some "") none "ok"
    (Or.inl rfl)⟩

/-- Claim C6: protocol-expected transport failures are returned, never thrown: a
timeout yields a `Failure` with message `"Request timeout after <N> seconds"`
for the configured timeout `N`, and any other transport-level request
exception yields `"Request error: "` followed by the underlying message. -/
theorem call_api_transport_failures (cfg : Config) (endpoint : String)
    (params : Option Dict) (method : String) (ptx : Option String)
    (hm : pyUpper method = "GET" ∨ pyUpper method = "POST") :
    (call_api cfg endpoint params method ptx .timeout).outcome
      = .ok (mkFailure (.str ("Request timeout after " ++ toString cfg.timeout ++ " seconds"))) ∧
    (∀ msg, (call_api cfg endpoint params method ptx (.reqError msg)).outcome
      = .ok (mkFailure (.str ("Request error: " ++ msg)))) := by
  constructor
  · unfold call_api
    rw [if_pos hm]
  · intro msg
    unfold call_api
    rw [if_pos hm]

theorem call_api_transport_failures_witness :
    (call_api defaultConfig "/api/test" none "GET" none .timeout).outcome
      = .ok (mkFailure (.str ("Request timeout after " ++ toString defaultConfig.timeout
          ++ " seconds"))) ∧
    (∀ msg, (call_api defaultConfig "/api/test" none "GET" none (.reqError msg)).outcome
      = .ok (mkFailure (.str ("Request error: " ++ msg)))) :=
  call_api_transport_failures defaultConfig "/api/test" none "GET" none (Or.inl rfl)

/-- Claim C7: for every status outside 200/402/400/429/500, the `Failure` message
is the parsed body's `error` field when present, `"HTTP <code>"` when the
body parses without one, and `"HTTP <code>: "` plus the raw text truncated
to 200 characters when parsing fails — the truncation applies to the raw
text only, before the prefix is attached. -/
theorem call_api_other_status (cfg : Config) (endpoint : String) (params : Option Dict)
    (method : String) (ptx : Option String) (status : Nat) (body : Option Json) (text : String)
    (hm : pyUpper method = "GET" ∨ pyUpper method = "POST")
    (h200 : status ≠ 200) (h402 : status ≠ 402) (h400 : status ≠ 400)
    (h429 : status ≠ 429) (h500 : status ≠ 500) :
    (body = none →
      (call_api cfg endpoint params method ptx (.response status body text)).outcome
        = .ok (mkFailure (.str ("HTTP " ++ toString status ++ ": " ++ text.take 200)))) ∧
    (∀ fields, body = some (.obj fields) →
      (∀ e, dictGet fields "error" = some e →
        (call_api cfg endpoint params method ptx (.response status body text)).outcome
          = .ok (mkFailure e)) ∧
      (dictGet fields "error" = none →
        (call_api cfg endpoint params method ptx (.response status body text)).outcome
          = .ok (mkFailure (.str ("HTTP " ++ toString status))))) := by
  have hbranch : ∀ b : Option Json,
      (call_api cfg endpoint params method ptx (.response status b text)).outcome
        = classify cfg ptx status b text := by
    intro b
    unfold call_api
    rw [if_pos hm]
  have hclassify : ∀ b : Option Json, classify cfg ptx status b text =
      (match b with
       | none => .ok (mkFailure (.str ("HTTP " ++ toString status ++ ": " ++ text.take 200)))
       | some (.obj fields) =>
           .ok (mkFailure (dictGetD fields "error" (.str ("HTTP " ++ toString status))))
       | some _ => .error .attributeError) := by
    intro b
    unfold classify
    rw [if_neg h200, if_neg h402, if_neg h400, if_neg h429, if_neg h500]
  refine ⟨?_, ?_⟩
  · intro hb
    rw [hb, hbranch, hclassify]
  · intro fields hb
    refine ⟨?_, ?_⟩
    · intro e he
      rw [hb, hbranch, hclassify]
      simp [dictGetD, he]
    · intro he
      rw [hb, hbranch, hclassify]
      simp [dictGetD, he]

theorem call_api_other_status_witness :
    ((none : Option Json) = none →
      (call_api defaultConfig "/api/test" none "GET" none
          (.response 404 none "page missing")).outcome
        = .ok (mkFailure (.str ("HTTP " ++ toString 404 ++ ": "
            ++ "page missing".take 200)))) ∧
    (∀ fields, (none : Option Json) = some (.obj fields) →
      (∀ e, dictGet fields "error" = some e →
        (call_api defaultConfig "/api/test" none "GET" none
            (.response 404 none "page missing")).outcome = .ok (mkFailure e)) ∧
      (dictGet fields "error" = none →
        (call_api defaultConfig "/api/test" none "GET" none
            (.response 404 none "page missing")).outcome
          = .ok (mkFailure (.str ("HTTP " ++ toString 404))))) :=
  call_api_other_status defaultConfig "/api/test" none "GET" none 404 none "page missing"
    (Or.inl rfl) (by decide) (by decide) (by decide) (by decide) (by decide)

/-- Claim C1: on a 402 response, `payment_details` is the shallow merge of the
server dict (the parsed body, or the synthesized fallback when parsing
fails) with the client-synthesized fields, synthesized fields winning:
`payment_address`/`payment_chain` always come out as the configured
constants, and every server key outside the synthesized set passes through
unmodified. -/
theorem call_api_402_payment_details (cfg : Config) (endpoint : String)
    (params : Option Dict) (method : String) (ptx : Option String)
    (body : Option Json) (text : String) (d : Dict)
    (hm : pyUpper method = "GET" ∨ pyUpper method = "POST")
    (hd : server402Dict cfg body = some d) :
    ∃ pd, (call_api cfg endpoint params method ptx (.response 402 body text)).outcome
        = .ok ⟨false, none, none, some true, some pd, some (resolveCost d), none⟩ ∧
      pd = dictMerge d (synth402 cfg (resolveCost d)) ∧
      dictGet pd "payment_address" = some (.str cfg.payment_address) ∧
      dictGet pd "payment_chain" = some (.str cfg.payment_chain) ∧
      (∀ k, k ∉ synthKeys → dictGet pd k = dictGet d k) := by
  refine ⟨dictMerge d (synth402 cfg (resolveCost d)), ?_, rfl,
    merged402_payment_address d cfg _, merged402_payment_chain d cfg _,
    fun k hk => merged402_passthrough d cfg _ k hk⟩
  rw [call_api_402_eq cfg endpoint params method ptx body text hm]
  unfold handle402
  rw [hd]

theorem call_api_402_payment_details_witness :
    ∃ pd, (call_api defaultConfig "/api/weather" none "GET" none
        (.response 402 (some (.obj [("required_payment", .str "0.02"),
          ("payment_address", .str "0xserver"), ("note", .str "extra")])) "")).outcome
        = .ok ⟨false, none, none, some true, some pd,
               some (resolveCost [("required_payment", .str "0.02"),
                 ("payment_address", .str "0xserver"), ("note", .str "extra")]), none⟩ ∧
      pd = dictMerge [("required_payment", .str "0.02"),
             ("payment_address", .str "0xserver"), ("note", .str "extra")]
             (synth402 defaultConfig (resolveCost [("required_payment", .str "0.02"),
               ("payment_address", .str "0xserver"), ("note", .str "extra")])) ∧
      dictGet pd "payment_address" = some (.str defaultConfig.payment_address) ∧
      dictGet pd "payment_chain" = some (.str defaultConfig.payment_chain) ∧
      (∀ k, k ∉ synthKeys → dictGet pd k
        = dictGet [("required_payment", .str "0.02"),
            ("payment_address", .str "0xserver"), ("note", .str "extra")] k) :=
  call_api_402_payment_details defaultConfig "/api/weather" none "GET" none
    (some (.obj [("required_payment", .str "0.02"),
      ("payment_address", .str "0xserver"), ("note", .str "extra")])) ""
    [("required_payment", .str "0.02"), ("payment_address", .str "0xserver"),
      ("note", .str "extra")]
    (Or.inl rfl) rfl

/-- Claim C2: the cost reported for a 402 (both `cost_usdc` and
`payment_details["payment_amount"]`) is the body's `amount` value when that
key is present, else its `required_payment` value when present, else the
literal string `"unknown"`; an unparseable body resolves to `"unknown"`. -/
theorem call_api_402_cost (cfg : Config) (endpoint : String) (params : Option Dict)
    (method : String) (ptx : Option String) (body : Option Json) (text : String) (d : Dict)
    (hm : pyUpper method = "GET" ∨ pyUpper method = "POST")
    (hd : server402Dict cfg body = some d) :
    ∃ o, (call_api cfg endpoint params method ptx (.response 402 body text)).outcome
        = .ok o ∧
      o.cost_usdc = some (resolveCost d) ∧
      (∃ pd, o.payment_details = some pd ∧
        dictGet pd "payment_amount" = some (resolveCost d)) ∧
      (∀ v, dictGet d "amount" = some v → resolveCost d = v) ∧
      (dictGet d "amount" = none →
        ∀ v, dictGet d "required_payment" = some v → resolveCost d = v) ∧
      (dictGet d "amount" = none → dictGet d "required_payment" = none →
        resolveCost d = .str "unknown") ∧
      (body = none → resolveCost d = .str "unknown") := by
  refine ⟨⟨false, none, none, some true,
      some (dictMerge d (synth402 cfg (resolveCost d))), some (resolveCost d), none⟩,
    ?_, rfl, ⟨_, rfl, merged402_payment_amount d cfg _⟩, ?_, ?_, ?_, ?_⟩
  · rw [call_api_402_eq cfg endpoint params method ptx body text hm]
    unfold handle402
    rw [hd]
  · intro v hv
    simp [resolveCost, dictGetD, hv]
  · intro ha v hv
    simp [resolveCost, dictGetD, ha, hv]
  · intro ha hr
    simp [resolveCost, dictGetD, ha, hr]
  · intro hb
    rw [hb] at hd
    have : fallback402 cfg = d := by
      simpa [server402Dict] using hd
    rw [← this]
    rfl

theorem call_api_402_cost_witness :
    ∃ o, (call_api defaultConfig "/api/weather" none "GET" none
        (.response 402 (some (.obj [("required_payment", .str "0.02")])) "")).outcome
        = .ok o ∧
      o.cost_usdc = some (resolveCost [("required_payment", .str "0.02")]) ∧
      (∃ pd, o.payment_details = some pd ∧
        dictGet pd "payment_amount" = some (resolveCost [("required_payment", .str "0.02")])) ∧
      (∀ v, dictGet [("required_payment", .str "0.02")] "amount" = some v →
        resolveCost [("required_payment", .str "0.02")] = v) ∧
      (dictGet [("required_payment", .str "0.02")] "amount" = none →
        ∀ v, dictGet [("required_payment", .str "0.02")] "required_payment" = some v →
          resolveCost [("required_payment", .str "0.02")] = v) ∧
      (dictGet [("required_payment", .str "0.02")] "amount" = none →
        dictGet [("required_payment", .str "0.02")] "required_payment" = none →
          resolveCost [("required_payment", .str "0.02")] = .str "unknown") ∧
      ((some (Json.obj [("required_payment", Json.str "0.02")]) : Option Json) = none →
        resolveCost [("required_payment", .str "0.02")] = .str "unknown") :=
  call_api_402_cost defaultConfig "/api/weather" none "GET" none
    (some (.obj [("required_payment", .str "0.02")])) ""
    [("required_payment", .str "0.02")] (Or.inl rfl) rfl

/-- Claim C3: no outcome is both `Success` and `PaymentRequired` (`success` is true
only in the 200 branch, `payment_required` true only with `success` false),
and every `PaymentRequired` outcome carries `instructions` that are exactly
the 3 fixed strings, the first containing the resolved cost, the upper-cased
configured chain and the configured address. -/
theorem call_outcome_invariant (cfg : Config) (endpoint : String) (params : Option Dict)
    (method : String) (ptx : Option String) (net : NetResult) (o : CallOutcome)
    (h : (call_api cfg endpoint params method ptx net).outcome = .ok o) :
    (¬ (o.success = true ∧ o.payment_required = some true)) ∧
    (o.success = true → ∃ body text, net = .response 200 body text) ∧
    (o.payment_required = some true →
      o.success = false ∧
      ∃ pd c, o.payment_details = some pd ∧ o.cost_usdc = some c ∧
        dictGet pd "instructions"
          = some (.arr [.str (instrLine1 cfg c), .str instrLine2, .str instrLine3]) ∧
        pyIn (pyStr c) (instrLine1 cfg c) = true ∧
        pyIn (pyUpper cfg.payment_chain) (instrLine1 cfg c) = true ∧
        pyIn cfg.payment_address (instrLine1 cfg c) = true) := by
  by_cases hm : pyUpper method = "GET" ∨ pyUpper method = "POST"
  · unfold call_api at h
    rw [if_pos hm] at h
    cases net with
    | timeout =>
      dsimp only at h
      injection h with h
      subst h
      exact invariant_of_failure _ _ _ rfl rfl
    | reqError msg =>
      dsimp only at h
      injection h with h
      subst h
      exact invariant_of_failure _ _ _ rfl rfl
    | response status body text =>
      dsimp only at h
      unfold classify at h
      by_cases h200 : status = 200
      · rw [if_pos h200] at h
        injection h with h
        subst h
        refine ⟨fun hc => Option.noConfusion hc.2, fun _ => ⟨body, text, by rw [h200]⟩,
          fun hc => Option.noConfusion hc⟩
      · rw [if_neg h200] at h
        by_cases h402 : status = 402
        · rw [if_pos h402] at h
          unfold handle402 at h
          cases hs : server402Dict cfg body with
          | none =>
            rw [hs] at h
            exact Except.noConfusion h
          | some pd =>
            rw [hs] at h
            dsimp only at h
            injection h with h
            subst h
            refine ⟨fun hc => Bool.noConfusion hc.1,
              fun hc => absurd hc Bool.noConfusion, fun _ => ?_⟩
            exact ⟨rfl, dictMerge pd (synth402 cfg (resolveCost pd)), resolveCost pd,
              rfl, rfl, merged402_instructions pd cfg _,
              pyIn_instrLine1_cost cfg _, pyIn_instrLine1_chain cfg _,
              pyIn_instrLine1_address cfg _⟩
        · rw [if_neg h402] at h
          by_cases h400 : status = 400
          · rw [if_pos h400] at h
            match body, h with
            | none, h =>
              injection h with h
              subst h
              exact invariant_of_failure _ _ _ rfl rfl
            | some (.obj fields), h =>
              injection h with h
              subst h
              exact invariant_of_failure _ _ _ rfl rfl
          · rw [if_neg h400] at h
            by_cases h429 : status = 429
            · rw [if_pos h429] at h
              injection h with h
              subst h
              exact invariant_of_failure _ _ _ rfl rfl
            · rw [if_neg h429] at h
              by_cases h500 : status = 500
              · rw [if_pos h500] at h
                injection h with h
                subst h
                exact invariant_of_failure _ _ _ rfl rfl
              · rw [if_neg h500] at h
                match body, h with
                | none, h =>
                  injection h with h
                  subst h
                  exact invariant_of_failure _ _ _ rfl rfl
                | some (.obj fields), h =>
                  injection h with h
                  subst h
                  exact invariant_of_failure _ _ _ rfl rfl
  · unfold call_api at h
    rw [if_neg hm] at h
    dsimp only at h
    injection h with h
    subst h
    exact invariant_of_failure _ _ _ rfl rfl

theorem call_outcome_invariant_witness :
    (¬ ((⟨false, none, none, some true,
          some (dictMerge [("amount", Json.str "0.03")]
            (synth402 defaultConfig (resolveCost [("amount", Json.str "0.03")]))),
          some (resolveCost [("amount", Json.str "0.03")]), none⟩ : CallOutcome).success = true ∧
        (⟨false, none, none, some true,
          some (dictMerge [("amount", Json.str "0.03")]
            (synth402 defaultConfig (resolveCost [("amount", Json.str "0.03")]))),
          some (resolveCost [("amount", Json.str "0.03")]), none⟩ : CallOutcome).payment_required
          = some true)) ∧
    ((⟨false, none, none, some true,
        some (dictMerge [("amount", Json.str "0.03")]
          (synth402 defaultConfig (resolveCost [("amount", Json.str "0.03")]))),
        some (resolveCost [("amount", Json.str "0.03")]), none⟩ : CallOutcome).success = true →
      ∃ body text, (NetResult.response 402 (some (.obj [("amount", Json.str "0.03")])) "")
        = .response 200 body text) ∧
    ((⟨false, none, none, some true,
        some (dictMerge [("amount", Json.str "0.03")]
          (synth402 defaultConfig (resolveCost [("amount", Json.str "0.03")]))),
        some (resolveCost [("amount", Json.str "0.03")]), none⟩ : CallOutcome).payment_required
        = some true →
      (⟨false, none, none, some true,
        some (dictMerge [("amount", Json.str "0.03")]
          (synth402 defaultConfig (resolveCost [("amount", Json.str "0.03")]))),
        some (resolveCost [("amount", Json.str "0.03")]), none⟩ : CallOutcome).success = false ∧
      ∃ pd c, (⟨false, none, none, some true,
          some (dictMerge [("amount", Json.str "0.03")]
            (synth402 defaultConfig (resolveCost [("amount", Json.str "0.03")]))),
          some (resolveCost [("amount", Json.str "0.03")]), none⟩ : CallOutcome).payment_details
            = some pd ∧
        (⟨false, none, none, some true,
          some (dictMerge [("amount", Json.str "0.03")]
            (synth402 defaultConfig (resolveCost [("amount", Json.str "0.03")]))),
          some (resolveCost [("amount", Json.str "0.03")]), none⟩ : CallOutcome).cost_usdc
            = some c ∧
        dictGet pd "instructions"
          = some (.arr [.str (instrLine1 defaultConfig c), .str instrLine2, .str instrLine3]) ∧
        pyIn (pyStr c) (instrLine1 defaultConfig c) = true ∧
        pyIn (pyUpper defaultConfig.payment_chain) (instrLine1 defaultConfig c) = true ∧
        pyIn defaultConfig.payment_address (instrLine1 defaultConfig c) = true) :=
  call_outcome_invariant defaultConfig "/api/weather" (some [("city", .str "Paris")])
    "GET" none (.response 402 (some (.obj [("amount", Json.str "0.03")])) "")
    ⟨false, none, none, some true,
      some (dictMerge [("amount", Json.str "0.03")]
        (synth402 defaultConfig (resolveCost [("amount", Json.str "0.03")]))),
      some (resolveCost [("amount", Json.str "0.03")]), none⟩ rfl

/-! ### Search and lookup lemmas -/

theorem pyLower_empty : pyLower "" = "" := rfl

/-- A service whose `name` reads as a string matches the empty query without
looking at `description` or `tags` (the disjunction short-circuits). -/
theorem svcMatches_empty (svc : Dict) (s : String)
    (hs : getStrField svc "name" = .ok s) :
    svcMatches "" svc = .ok true := by
  unfold svcMatches
  rw [hs]
  show (if pyIn "" (pyLower s) then pure true else _) = Except.ok true
  rw [pyIn_empty]
  rfl

theorem filterE_sublist (p : Dict → Except PyExc Bool) :
    ∀ (services r : List Dict), filterE p services = .ok r → r.Sublist services := by
  intro services
  induction services with
  | nil =>
    intro r h
    injection h with h
    rw [← h]
  | cons svc rest ih =>
    intro r h
    unfold filterE at h
    cases hp : p svc with
    | error e =>
      rw [hp] at h
      exact Except.noConfusion h
    | ok b =>
      rw [hp] at h
      cases ht : filterE p rest with
      | error e =>
        rw [ht] at h
        exact Except.noConfusion h
      | ok tail =>
        rw [ht] at h
        injection h with h
        rw [← h]
        cases b with
        | true => exact (ih tail ht).cons₂ svc
        | false => exact (ih tail ht).cons svc

theorem filterE_all_true (p : Dict → Except PyExc Bool) :
    ∀ (services : List Dict), (∀ svc ∈ services, p svc = .ok true) →
      filterE p services = .ok services := by
  intro services
  induction services with
  | nil => intro _; rfl
  | cons svc rest ih =>
    intro hall
    unfold filterE
    rw [hall svc (List.mem_cons_self svc rest), ih (fun x hx => hall x (List.mem_cons_of_mem svc hx))]
    rfl

/-- Claim C8: the empty query returns the whole discovery result in order;
every search result is an order-preserving sublist of the discovery result;
and repeating a search over an unchanged discovery result yields the
identical ordered result. -/
theorem search_services_stable_filter (services : List Dict)
    (hname : ∀ svc ∈ services, ∃ s, getStrField svc "name" = .ok s) :
    search_services services "" = .ok services ∧
    (∀ q r, search_services services q = .ok r → r.Sublist services) ∧
    (∀ q, search_services services q = search_services services q) := by
  refine ⟨?_, ?_, fun _ => rfl⟩
  · unfold search_services
    rw [pyLower_empty]
    exact filterE_all_true _ services
      (fun svc hsvc => (hname svc hsvc).elim (fun s hs => svcMatches_empty svc s hs))
  · intro q r h
    exact filterE_sublist _ services r h

theorem search_services_stable_filter_witness :
    search_services [[("name", Json.str "Weather API")],
        [("name", Json.str "Crypto Price"), ("tags", Json.arr [Json.str "crypto"])]] ""
      = .ok [[("name", Json.str "Weather API")],
          [("name", Json.str "Crypto Price"), ("tags", Json.arr [Json.str "crypto"])]] ∧
    (∀ q r, search_services [[("name", Json.str "Weather API")],
        [("name", Json.str "Crypto Price"), ("tags", Json.arr [Json.str "crypto"])]] q
        = .ok r →
      r.Sublist [[("name", Json.str "Weather API")],
        [("name", Json.str "Crypto Price"), ("tags", Json.arr [Json.str "crypto"])]]) ∧
    (∀ q, search_services [[("name", Json.str "Weather API")],
        [("name", Json.str "Crypto Price"), ("tags", Json.arr [Json.str "crypto"])]] q
      = search_services [[("name", Json.str "Weather API")],
          [("name", Json.str "Crypto Price"), ("tags", Json.arr [Json.str "crypto"])]] q) :=
  search_services_stable_filter
    [[("name", Json.str "Weather API")],
      [("name", Json.str "Crypto Price"), ("tags", Json.arr [Json.str "crypto"])]]
    (by
      intro svc hsvc
      simp only [List.mem_cons, List.not_mem_nil, or_false] at hsvc
      rcases hsvc with h | h
      · exact ⟨"Weather API", by rw [h]; rfl⟩
      · exact ⟨"Crypto Price", by rw [h]; rfl⟩)

theorem getStrField_name_eq_effName (svc : Dict) (s : String)
    (h : getStrField svc "name" = .ok s) : effName svc = s := by
  unfold getStrField at h
  unfold effName
  revert h
  cases dictGetD svc "name" (.str "") with
  | str t => intro h; injection h with h
  | null => intro h; exact Except.noConfusion h
  | bool b => intro h; exact Except.noConfusion h
  | num n => intro h; exact Except.noConfusion h
  | arr l => intro h; exact Except.noConfusion h
  | obj fs => intro h; exact Except.noConfusion h

theorem findByName_eq_find? (name_l : String) :
    ∀ (services : List Dict),
      (∀ svc ∈ services, ∃ s, getStrField svc "name" = .ok s) →
      findByName name_l services
        = .ok (services.find? (fun svc => pyLower (effName svc) = name_l)) := by
  intro services
  induction services with
  | nil => intro _; rfl
  | cons svc rest ih =>
    intro hall
    obtain ⟨s, hs⟩ := hall svc (List.mem_cons_self svc rest)
    have he : effName svc = s := getStrField_name_eq_effName svc s hs
    unfold findByName
    rw [hs]
    show (if pyLower s = name_l then Except.ok (some svc) else findByName name_l rest) = _
    by_cases hc : pyLower s = name_l
    · rw [if_pos hc, List.find?_cons_of_pos _ (by rw [he]; exact decide_eq_true hc)]
    · rw [if_neg hc, List.find?_cons_of_neg _ (by rw [he]; simpa using hc),
        ih (fun x hx => hall x (List.mem_cons_of_mem svc hx))]

/-- Claim C9: `get_service_details` over a successful discovery returns the first
service in discovery order whose name matches case-insensitively, `none`
when no service matches, and `none` (not an error) whenever discovery
raised. -/
theorem get_service_details_first_match (services : List Dict) (service_name : String)
    (hname : ∀ svc ∈ services, ∃ s, getStrField svc "name" = .ok s) :
    get_service_details (.ok services) service_name
      = services.find? (fun svc => pyLower (effName svc) = pyLower service_name) ∧
    (services.find? (fun svc => pyLower (effName svc) = pyLower service_name) = none →
      get_service_details (.ok services) service_name = none) ∧
    (∀ e, get_service_details (.error e) service_name = none) := by
  have hmain : get_service_details (.ok services) service_name
      = services.find? (fun svc => pyLower (effName svc) = pyLower service_name) := by
    unfold get_service_details
    show (match findByName (pyLower service_name) services with
          | .ok r => r
          | .error _ => none) = _
    rw [findByName_eq_find? (pyLower service_name) services hname]
  exact ⟨hmain, fun hn => by rw [hmain, hn], fun e => rfl⟩

theorem get_service_details_first_match_witness :
    get_service_details (.ok [[("name", Json.str "Crypto Price")],
        [("name", Json.str "Weather API")], [("name", Json.str "Weather API v2")]])
        "weather api"
      = [[("name", Json.str "Crypto Price")], [("name", Json.str "Weather API")],
          [("name", Json.str "Weather API v2")]].find?
          (fun svc => pyLower (effName svc) = pyLower "weather api") ∧
    ([[("name", Json.str "Crypto Price")], [("name", Json.str "Weather API")],
        [("name", Json.str "Weather API v2")]].find?
        (fun svc => pyLower (effName svc) = pyLower "weather api") = none →
      get_service_details (.ok [[("name", Json.str "Crypto Price")],
          [("name", Json.str "Weather API")], [("name", Json.str "Weather API v2")]])
          "weather api" = none) ∧
    (∀ e, get_service_details (.error e) "weather api" = none) :=
  get_service_details_first_match
    [[("name", Json.str "Crypto Price")], [("name", Json.str "Weather API")],
      [("name", Json.str "Weather API v2")]] "weather api"
    (by
      intro svc hsvc
      simp only [List.mem_cons, List.not_mem_nil, or_false] at hsvc
      rcases hsvc with h | h | h
      · exact ⟨"Crypto Price", by rw [h]; rfl⟩
      · exact ⟨"Weather API", by rw [h]; rfl⟩
      · exact ⟨"Weather API v2", by rw [h]; rfl⟩)

/-- Claim C10: any service record lacking its `name`, its `description` or
its `tags` key (each independently) has that field read as the empty string
(resp. the empty tag list) rather than raising: with its name absent or a
string it still matches the empty query in `search_services` (no failure),
and with its name absent it is an ordinary non-match in
`get_service_details` for any non-empty queried name, not a failure. -/
theorem missing_fields_are_defaulted (svc : Dict) :
    (dictGet svc "name" = none → getStrField svc "name" = .ok "") ∧
    (dictGet svc "description" = none → getStrField svc "description" = .ok "") ∧
    (dictGet svc "tags" = none → getTagList svc = .ok []) ∧
    ((dictGet svc "name" = none ∨ (∃ s, dictGet svc "name" = some (.str s))) →
      svcMatches "" svc = .ok true ∧ search_services [svc] "" = .ok [svc]) ∧
    (dictGet svc "name" = none →
      ∀ q, pyLower q ≠ "" → get_service_details (.ok [svc]) q = none) := by
  have hnameNone : dictGet svc "name" = none → getStrField svc "name" = .ok "" := by
    intro hn
    unfold getStrField dictGetD
    rw [hn]
    rfl
  have hnameStr : ∀ s, dictGet svc "name" = some (.str s) →
      getStrField svc "name" = .ok s := by
    intro s hs
    unfold getStrField dictGetD
    rw [hs]
    rfl
  have hmatch : (dictGet svc "name" = none ∨ (∃ s, dictGet svc "name" = some (.str s))) →
      svcMatches "" svc = .ok true := by
    intro h
    rcases h with hn | ⟨s, hs⟩
    · exact svcMatches_empty svc "" (hnameNone hn)
    · exact svcMatches_empty svc s (hnameStr s hs)
  refine ⟨hnameNone, ?_, ?_, fun h => ⟨hmatch h, ?_⟩, ?_⟩
  · intro hd
    unfold getStrField dictGetD
    rw [hd]
    rfl
  · intro ht
    unfold getTagList dictGetD
    rw [ht]
    rfl
  · unfold search_services
    rw [pyLower_empty]
    exact filterE_all_true _ [svc]
      (fun x hx => by
        rw [List.mem_singleton] at hx
        rw [hx]
        exact hmatch h)
  · intro hn q hq
    unfold get_service_details
    show (match findByName (pyLower q) [svc] with
          | .ok r => r
          | .error _ => none) = none
    unfold findByName
    rw [hnameNone hn]
    show (match (if pyLower "" = pyLower q then Except.ok (some svc)
                 else findByName (pyLower q) []) with
          | .ok r => r
          | .error _ => none) = none
    rw [if_neg (fun hc => hq (by rw [← hc]; rfl))]
    rfl

theorem missing_fields_are_defaulted_witness :
    getTagList [("name", Json.str "Weather API")] = .ok [] ∧
    getStrField [("name", Json.str "Weather API")] "description" = .ok "" ∧
    svcMatches "" [("name", Json.str "Weather API")] = .ok true ∧
    search_services [[("name", Json.str "Weather API")]] ""
      = .ok [[("name", Json.str "Weather API")]] ∧
    getStrField [("endpoint", Json.str "/api/x")] "name" = .ok "" ∧
    svcMatches "" [("endpoint", Json.str "/api/x")] = .ok true ∧
    get_service_details (.ok [[("endpoint", Json.str "/api/x")]]) "weather" = none := by
  have h1 := missing_fields_are_defaulted [("name", Json.str "Weather API")]
  have h2 := missing_fields_are_defaulted [("endpoint", Json.str "/api/x")]
  have h1m := h1.2.2.2.1 (Or.inr ⟨"Weather API", rfl⟩)
  have h2m := h2.2.2.2.1 (Or.inl rfl)
  exact ⟨h1.2.2.1 rfl, h1.2.1 rfl, h1m.1, h1m.2, h2.1 rfl, h2m.1,
    h2.2.2.2.2 rfl "weather" (by decide)⟩

end X402
